import Mathlib

/-!
Shallow embedding of `docker_stats_check.py` (Rackspace Cloud Monitoring
plugin for Docker stats).

Modelling conventions:
* Python dictionaries whose keys may be absent become records with `Option`
  fields; reading an absent key (`KeyError`) is modelled by `Option.none`
  propagating to a crash marker.
* Python floats are modelled exactly as rationals (`ℚ`); machine integers
  from the JSON payload are modelled as `Int`.
* Python float division raises `ZeroDivisionError` on a zero divisor; this
  is modelled by `pydiv` returning `none`.
* Each `print` becomes one `Line`.  The constructor records which wire
  form the printed text has: `statusOk m` prints `status ok <m>`,
  `statusErr m` prints `status err <m>`, `metricInt n v` prints
  `metric <n> int64 <v>`, `metricF2`/`metricF1` print the value with the
  `%.2f` / `%.1f` format, and `plain` is a line that is none of these
  (it does not begin with the token `status` or `metric`).
-/

namespace DockerStatsCheck

/-- The `cpu_usage` sub-dictionary of `cpu_stats` / `precpu_stats`.
Every key may be absent in a payload, hence `Option` fields. -/
structure CpuUsage where
  total_usage : Option Int
  usage_in_kernelmode : Option Int
  usage_in_usermode : Option Int
  percpu_usage : Option (List Int)
  deriving DecidableEq, Repr

/-- The `cpu_stats` / `precpu_stats` dictionary (the keys the script reads). -/
structure CpuStats where
  cpu_usage : Option CpuUsage
  system_cpu_usage : Option Int
  deriving DecidableEq, Repr

/-- Python truthiness of a `cpu_stats`-shaped dictionary restricted to the
modelled keys: a dict is truthy iff it is non-empty, i.e. some key is
present (source line 112 tests `if s['precpu_stats'] and ...`). -/
def dictTruthy (p : CpuStats) : Bool :=
  p.cpu_usage.isSome || p.system_cpu_usage.isSome

/-- The `memory_stats` dictionary.  `total_cache` stands for the nested
access `memory_stats['stats']['total_cache']` (source line 120); absence of
either key is modelled as `none`. -/
structure MemoryStats where
  usage : Option Int
  limit : Option Int
  max_usage : Option Int
  total_cache : Option Int
  deriving DecidableEq, Repr

/-- One network-interface record `{rx_bytes, rx_packets, tx_bytes, tx_packets}`. -/
structure NetRec where
  rx_bytes : Int
  rx_packets : Int
  tx_bytes : Int
  tx_packets : Int
  deriving DecidableEq, Repr

/-- Which of the two network keys the sample carries (source lines 122 and
124): the legacy flat `network` record, the `networks` mapping (an
association list in its iteration order; deterministic within one run), or
neither key. -/
inductive NetShape where
  | network (n : NetRec)
  | networks (ifs : List (String × NetRec))
  | absent
  deriving DecidableEq, Repr

/-- One decoded stat sample (the result of `json.loads` at source line 109),
restricted to the keys the script reads.  `pids_current` stands for
`pids_stats['current']` (line 121). -/
structure Sample where
  cpu_stats : CpuStats
  precpu_stats : CpuStats
  memory_stats : MemoryStats
  pids_current : Option Int
  net : NetShape
  deriving DecidableEq, Repr

/-- One printed output line, classified by its wire form (see module
docstring). -/
inductive Line where
  | statusOk (msg : String)
  | statusErr (msg : String)
  | plain (msg : String)
  | metricInt (name : String) (v : Int)
  | metricF2 (name : String) (v : ℚ)
  | metricF1 (name : String) (v : ℚ)
  deriving DecidableEq, Repr

/-- How the process run ends: an explicit `sys.exit(code)`, an uncaught
exception (CPython terminates with exit code 1), or the function returning
normally (the script then falls off `main` and exits 0). -/
inductive Outcome where
  | exited (code : Nat)
  | crashed
  | returned
  deriving DecidableEq, Repr

/-- The process exit code produced by each outcome. -/
def exitCodeOf : Outcome → Nat
  | .exited c => c
  | .crashed => 1
  | .returned => 0

/-- Python float division: raises `ZeroDivisionError` when the divisor is
zero (modelled as `none`); otherwise exact rational division. -/
def pydiv (a b : ℚ) : Option ℚ :=
  if b = 0 then none else some (a / b)

/-- Source lines 139–149 (`get_cpu_percentage(c, p)`), adapted from moby's
`stats_helpers.go`.  `none` models a `KeyError` on one of the dictionary
reads.  `len(p['cpu_usage']['percpu_usage'])` is read only under the
positive-deltas guard, exactly as in the source. -/
def get_cpu_percentage (c p : CpuStats) : Option ℚ := do
  -- line 145: cpuDelta = float(c[..]['total_usage']) - float(p[..]['total_usage'])
  let ccu ← c.cpu_usage
  let ctot ← ccu.total_usage
  let pcu ← p.cpu_usage
  let ptot ← pcu.total_usage
  let cpuDelta : ℚ := (ctot : ℚ) - (ptot : ℚ)
  -- line 146: systemDelta = float(c['system_cpu_usage']) - float(p['system_cpu_usage'])
  let csys ← c.system_cpu_usage
  let psys ← p.system_cpu_usage
  let systemDelta : ℚ := (csys : ℚ) - (psys : ℚ)
  -- lines 147–148
  if cpuDelta > 0 ∧ systemDelta > 0 then
    let pc ← pcu.percpu_usage
    let q ← pydiv cpuDelta systemDelta
    pure (q * (pc.length : ℚ) * 100)
  else
    pure 0

/-- The guard at source line 112:
`s['precpu_stats'] and s['precpu_stats'].has_key('cpu_usage') and
 s['precpu_stats']['cpu_usage'].has_key('total_usage')`. -/
def cpuGuard (p : CpuStats) : Bool :=
  dictTruthy p && p.cpu_usage.isSome &&
    (match p.cpu_usage with
     | some cu => cu.total_usage.isSome
     | none => false)

/-- Source lines 151–155 (`print_network_stat(n, suffix='')`): the four
network metric lines, names built as `"network_rx_bytes%s" % suffix` etc. -/
def print_network_stat (n : NetRec) (suffix : String := "") : List Line :=
  [Line.metricInt ("network_rx_bytes" ++ suffix) n.rx_bytes,
   Line.metricInt ("network_rx_packets" ++ suffix) n.rx_packets,
   Line.metricInt ("network_tx_bytes" ++ suffix) n.tx_bytes,
   Line.metricInt ("network_tx_packets" ++ suffix) n.tx_packets]

/-- The accumulator initialised at source line 125:
`tot = { "rx_bytes": 0, "rx_packets": 0, "tx_bytes": 0, "tx_packets": 0 }`. -/
def netZero : NetRec := ⟨0, 0, 0, 0⟩

/-- One iteration of the accumulation at source lines 127–130. -/
def addNet (tot n : NetRec) : NetRec :=
  ⟨tot.rx_bytes + n.rx_bytes, tot.rx_packets + n.rx_packets,
   tot.tx_bytes + n.tx_bytes, tot.tx_packets + n.tx_packets⟩

/-- The loop at source lines 126–132: for each interface in iteration
order, add its four fields into `tot` and print its suffixed block; after
the loop, print the unsuffixed block holding `tot`. -/
def networksLoop (tot : NetRec) : List (String × NetRec) → List Line
  | [] => print_network_stat tot
  | (ifname, n) :: rest =>
      print_network_stat n ("_" ++ ifname) ++ networksLoop (addNet tot n) rest

/-- Source lines 122–132: dispatch on which network key the sample has. -/
def netLines : NetShape → List Line
  | .network n => print_network_stat n
  | .networks ifs => networksLoop netZero ifs
  | .absent => []

/-- Stitch the per-`print` segments of the emission body together: each
segment is `some lines` (the lines that statement prints) or `none` (a
`KeyError` / `ZeroDivisionError` raised by that statement before printing
anything).  The result is all lines printed before the first raising
statement, paired with `true` iff no statement raised. -/
def joinSegs : List (Option (List Line)) → List Line × Bool
  | [] => ([], true)
  | none :: _ => ([], false)
  | some ls :: rest =>
      let r := joinSegs rest
      (ls ++ r.1, r.2)

/-- The loop body at source lines 110–132 applied to one decoded sample:
the metric lines printed (in print order, cut off at the first raised
exception) and whether the body ran to completion. -/
def emitSample (s : Sample) : List Line × Bool :=
  joinSegs
    [ -- line 110: metric cpu_total_usage
      (s.cpu_stats.cpu_usage.bind (·.total_usage)).map
        (fun v => [Line.metricInt "cpu_total_usage" v]),
      -- line 111: metric cpu_system_usage
      s.cpu_stats.system_cpu_usage.map
        (fun v => [Line.metricInt "cpu_system_usage" v]),
      -- lines 112–113: conditional metric cpu_usage_percent (%.2f)
      (if cpuGuard s.precpu_stats then
        (get_cpu_percentage s.cpu_stats s.precpu_stats).map
          (fun v => [Line.metricF2 "cpu_usage_percent" v])
      else some []),
      -- line 114: metric cpu_kernel_mode_usage
      (s.cpu_stats.cpu_usage.bind (·.usage_in_kernelmode)).map
        (fun v => [Line.metricInt "cpu_kernel_mode_usage" v]),
      -- line 115: metric cpu_user_mode_usage
      (s.cpu_stats.cpu_usage.bind (·.usage_in_usermode)).map
        (fun v => [Line.metricInt "cpu_user_mode_usage" v]),
      -- line 116: metric memory_usage
      s.memory_stats.usage.map
        (fun v => [Line.metricInt "memory_usage" v]),
      -- lines 117–118: conditional metric memory_usage_percent (%.1f),
      -- value 100.0 * (float(usage) / float(limit))
      (match s.memory_stats.limit with
       | some l =>
          (s.memory_stats.usage.bind
            (fun u => pydiv (u : ℚ) (l : ℚ))).map
            (fun q => [Line.metricF1 "memory_usage_percent" (100 * q)])
       | none => some []),
      -- line 119: metric memory_max_usage
      s.memory_stats.max_usage.map
        (fun v => [Line.metricInt "memory_max_usage" v]),
      -- line 120: metric memory_total_cache
      s.memory_stats.total_cache.map
        (fun v => [Line.metricInt "memory_total_cache" v]),
      -- line 121: metric pids_current
      s.pids_current.map
        (fun v => [Line.metricInt "pids_current" v]),
      -- lines 122–132: network block
      some (netLines s.net) ]

/-- One run's environment: whether the `docker` module has the 1.x
`Client` attribute, whether it has the 2.x `DockerClient` attribute, and
the result of acquiring the stats inside the `try` block.  `acq = none`
models any exception raised while acquiring (socket, auth, missing
container, 2.x `next()`); `acq = some raws` is the acquired sequence,
each element being the raw payload's decoding result (`none` = the later
`json.loads` raises on it). -/
structure World where
  hasClient : Bool
  hasDockerClient : Bool
  acq : Option (List (Option Sample))

/-- Source line 99's message (printed text does not begin with `status`). -/
def unsupportedMsg : String :=
  "docker_stats_check.py: unsupported version of Docker-py library"

/-- Source line 107's status line payload. -/
def okMsg : String := "succeeded in obtaining docker container stats."

/-- Source line 136's status line payload. -/
def errMsg : String := "failed to obtain docker container stats."

/-- Source lines 84–137 (`DockerService.docker_stats`).  The unsupported
branch (lines 98–100) prints its diagnostic and calls `sys.exit(1)`;
`SystemExit` is not an `Exception` in Python 2, so the broad handler does
not catch it.  Any exception in acquisition sets `docker_running = False`
(line 104), leading to the `status err` branch (lines 136–137).  On
success the body prints `status ok` (line 107), then processes only the
first sample: `json.loads` (line 109; uncaught on failure), the metric
body (lines 110–132; `KeyError`/`ZeroDivisionError` uncaught), then
`sys.exit(0)` at line 134 inside the loop — so with an empty sequence the
loop body never runs and the function returns normally. -/
def docker_stats (w : World) : List Line × Outcome :=
  if !w.hasClient && !w.hasDockerClient then
    ([Line.plain unsupportedMsg], Outcome.exited 1)
  else
    match w.acq with
    | none => ([Line.statusErr errMsg], Outcome.exited 1)
    | some raws =>
      match raws with
      | [] => ([Line.statusOk okMsg], Outcome.returned)
      | raw :: _ =>
        match raw with
        | none => ([Line.statusOk okMsg], Outcome.crashed)
        | some s =>
          let r := emitSample s
          (Line.statusOk okMsg :: r.1,
           if r.2 then Outcome.exited 0 else Outcome.crashed)

/-- Is this line a `metric` line on the wire? -/
def isMetricLine : Line → Bool
  | .metricInt _ _ => true
  | .metricF2 _ _ => true
  | .metricF1 _ _ => true
  | _ => false

/-- Is this line a `status`-format line (`status ok ...` or `status err ...`)? -/
def isStatusLine : Line → Bool
  | .statusOk _ => true
  | .statusErr _ => true
  | _ => false

/-- Is this line the `memory_usage_percent` metric line? -/
def isMemPctLine : Line → Bool
  | .metricF1 n _ => n == "memory_usage_percent"
  | _ => false

/-! ### Spec-side definitions (refinement targets, written from the
specification's words, to be compared with the code-side definitions). -/

/-- Spec §4.1: `(cpuDelta / systemDelta) * core_count * 100.0` only if
`cpuDelta > 0` and `systemDelta > 0`; otherwise exactly `0.0`. -/
def cpuPercentVal (ctot ptot csys psys : Int) (cores : Nat) : ℚ :=
  if (ctot : ℚ) - (ptot : ℚ) > 0 ∧ (csys : ℚ) - (psys : ℚ) > 0 then
    (((ctot : ℚ) - (ptot : ℚ)) / ((csys : ℚ) - (psys : ℚ))) * (cores : ℚ) * 100
  else 0

/-- The shapes of the `precpu_stats` dictionary covered by the
fully-determined sample below: either the empty (falsy) dictionary, or a
record with every field `get_cpu_percentage` reads present. -/
inductive PrecpuShape where
  | empty
  | full (ptot psys : Int) (percpu : List Int)
  deriving DecidableEq, Repr

/-- A sample in which every unconditional field is present (any sample
whose emission body runs to completion has these fields), with the two
optional groups (`precpu_stats`, `memory_stats['limit']`) explicit. -/
structure CompleteSample where
  ctot : Int
  csys : Int
  ckern : Int
  cuser : Int
  precpu : PrecpuShape
  musage : Int
  mmax : Int
  mcache : Int
  mlimit : Option Int
  pids : Int
  net : NetShape
  deriving DecidableEq, Repr

/-- Inject a fully-determined sample into the raw sample type. -/
def CompleteSample.toSample (cs : CompleteSample) : Sample where
  cpu_stats :=
    ⟨some ⟨some cs.ctot, some cs.ckern, some cs.cuser, none⟩, some cs.csys⟩
  precpu_stats :=
    match cs.precpu with
    | .empty => ⟨none, none⟩
    | .full ptot psys percpu => ⟨some ⟨some ptot, none, none, some percpu⟩, some psys⟩
  memory_stats := ⟨some cs.musage, cs.mlimit, some cs.mmax, some cs.mcache⟩
  pids_current := some cs.pids
  net := cs.net

/-- Spec §4.4: the four per-interface metric names suffixed with
`_<interfaceName>`, holding that interface's values. -/
def specIfaceLines (ifname : String) (n : NetRec) : List Line :=
  [Line.metricInt ("network_rx_bytes" ++ ("_" ++ ifname)) n.rx_bytes,
   Line.metricInt ("network_rx_packets" ++ ("_" ++ ifname)) n.rx_packets,
   Line.metricInt ("network_tx_bytes" ++ ("_" ++ ifname)) n.tx_bytes,
   Line.metricInt ("network_tx_packets" ++ ("_" ++ ifname)) n.tx_packets]

/-- Spec §4.4: the final unsuffixed group holding the field-wise sums over
all interfaces. -/
def specTotalLines (ifs : List (String × NetRec)) : List Line :=
  [Line.metricInt "network_rx_bytes" ((ifs.map (fun p => p.2.rx_bytes)).sum),
   Line.metricInt "network_rx_packets" ((ifs.map (fun p => p.2.rx_packets)).sum),
   Line.metricInt "network_tx_bytes" ((ifs.map (fun p => p.2.tx_bytes)).sum),
   Line.metricInt "network_tx_packets" ((ifs.map (fun p => p.2.tx_packets)).sum)]

/-- Spec §4.4: the whole network block, per shape. -/
def specNetLines : NetShape → List Line
  | .network n =>
      [Line.metricInt "network_rx_bytes" n.rx_bytes,
       Line.metricInt "network_rx_packets" n.rx_packets,
       Line.metricInt "network_tx_bytes" n.tx_bytes,
       Line.metricInt "network_tx_packets" n.tx_packets]
  | .networks ifs =>
      (ifs.map (fun p => specIfaceLines p.1 p.2)).flatten ++ specTotalLines ifs
  | .absent => []

/-- Spec §4.3: the fixed order of the metric lines of one sample. -/
def specLines (cs : CompleteSample) : List Line :=
  [Line.metricInt "cpu_total_usage" cs.ctot,
   Line.metricInt "cpu_system_usage" cs.csys]
  ++ (match cs.precpu with
      | .empty => []
      | .full ptot psys percpu =>
          [Line.metricF2 "cpu_usage_percent"
            (cpuPercentVal cs.ctot ptot cs.csys psys percpu.length)])
  ++ [Line.metricInt "cpu_kernel_mode_usage" cs.ckern,
      Line.metricInt "cpu_user_mode_usage" cs.cuser,
      Line.metricInt "memory_usage" cs.musage]
  ++ (match cs.mlimit with
      | some l => [Line.metricF1 "memory_usage_percent" (100 * ((cs.musage : ℚ) / (l : ℚ)))]
      | none => [])
  ++ [Line.metricInt "memory_max_usage" cs.mmax,
      Line.metricInt "memory_total_cache" cs.mcache,
      Line.metricInt "pids_current" cs.pids]
  ++ specNetLines cs.net

/-! ### Helper lemmas -/

@[simp]
lemma joinSegs_nil : joinSegs [] = ([], true) := rfl

@[simp]
lemma joinSegs_none (rest : List (Option (List Line))) :
    joinSegs (none :: rest) = ([], false) := rfl

@[simp]
lemma joinSegs_some (ls : List Line) (rest : List (Option (List Line))) :
    joinSegs (some ls :: rest) = (ls ++ (joinSegs rest).1, (joinSegs rest).2) := rfl

/-- On records carrying every field it reads, `get_cpu_percentage` returns
exactly the spec-side value. -/
lemma get_cpu_percentage_complete (ctot csys ptot psys : Int)
    (ck cu : Option Int) (cpl : Option (List Int)) (pk pu : Option Int)
    (percpu : List Int) :
    get_cpu_percentage ⟨some ⟨some ctot, ck, cu, cpl⟩, some csys⟩
        ⟨some ⟨some ptot, pk, pu, some percpu⟩, some psys⟩
      = some (cpuPercentVal ctot ptot csys psys percpu.length) := by
  unfold get_cpu_percentage cpuPercentVal
  simp only [Option.bind_some, Option.some_bind, bind, Option.bind]
  split
  · rename_i h
    have hne : (csys : ℚ) - (psys : ℚ) ≠ 0 := ne_of_gt h.2
    simp [pydiv, hne]
  · rfl

/-- The interface loop prints each interface's suffixed block in order and
then the block of the running total folded over all interfaces. -/
lemma networksLoop_spec (tot : NetRec) (ifs : List (String × NetRec)) :
    networksLoop tot ifs =
      (ifs.map (fun p => specIfaceLines p.1 p.2)).flatten
        ++ print_network_stat (List.foldl (fun t p => addNet t p.2) tot ifs) := by
  induction ifs generalizing tot with
  | nil => simp [networksLoop]
  | cons p rest ih =>
      obtain ⟨ifname, n⟩ := p
      simp [networksLoop, ih, specIfaceLines, print_network_stat]

/-- Folding `addNet` accumulates the field-wise sums. -/
lemma foldl_addNet (tot : NetRec) (ifs : List (String × NetRec)) :
    List.foldl (fun t p => addNet t p.2) tot ifs =
      ⟨tot.rx_bytes + (ifs.map (fun p => p.2.rx_bytes)).sum,
       tot.rx_packets + (ifs.map (fun p => p.2.rx_packets)).sum,
       tot.tx_bytes + (ifs.map (fun p => p.2.tx_bytes)).sum,
       tot.tx_packets + (ifs.map (fun p => p.2.tx_packets)).sum⟩ := by
  induction ifs generalizing tot with
  | nil => simp
  | cons p rest ih =>
      obtain ⟨ifname, n⟩ := p
      simp only [List.foldl_cons, List.map_cons, List.sum_cons]
      rw [ih]
      simp [addNet, add_assoc]

/-- The network block of the code equals the spec-side network block. -/
lemma netLines_eq_spec (sh : NetShape) : netLines sh = specNetLines sh := by
  cases sh with
  | network n => simp [netLines, specNetLines, print_network_stat]
  | networks ifs =>
      simp [netLines, specNetLines, networksLoop_spec, foldl_addNet, netZero,
        print_network_stat, specTotalLines]
  | absent => rfl

/-- Master lemma: on a fully-determined sample whose memory limit, when
present, is non-zero, the emission body runs to completion and prints
exactly the spec-ordered lines. -/
lemma emitSample_toSample (cs : CompleteSample) (h : cs.mlimit ≠ some 0) :
    emitSample cs.toSample = (specLines cs, true) := by
  obtain ⟨ctot, csys, ckern, cuser, precpu, musage, mmax, mcache, mlimit, pids, net⟩ := cs
  simp only [emitSample, CompleteSample.toSample, specLines, netLines_eq_spec]
  cases precpu with
  | empty =>
      cases mlimit with
      | none => simp [cpuGuard, dictTruthy, joinSegs]
      | some l =>
          have hl : l ≠ 0 := by simpa using h
          have hlq : ((l : Int) : ℚ) ≠ 0 := by exact_mod_cast hl
          simp [cpuGuard, dictTruthy, joinSegs, pydiv, hlq]
  | full ptot psys percpu =>
      cases mlimit with
      | none =>
          simp [cpuGuard, dictTruthy, joinSegs, get_cpu_percentage_complete]
      | some l =>
          have hl : l ≠ 0 := by simpa using h
          have hlq : ((l : Int) : ℚ) ≠ 0 := by exact_mod_cast hl
          simp [cpuGuard, dictTruthy, joinSegs, get_cpu_percentage_complete,
            pydiv, hlq]

/-- The memory-percent filter of the network block is empty: network lines
are all integer metric lines. -/
lemma specNetLines_no_memPct (sh : NetShape) :
    (specNetLines sh).filter (fun l => isMemPctLine l) = [] := by
  cases sh with
  | network n => simp [specNetLines, isMemPctLine]
  | networks ifs =>
      simp only [specNetLines, List.filter_append, List.append_eq_nil]
      constructor
      · induction ifs with
        | nil => rfl
        | cons p rest ih => simp [specIfaceLines, isMemPctLine, ih]
      · simp [specTotalLines, isMemPctLine]
  | absent => rfl

/-! ### Claims -/

/-- Claim C1: `get_cpu_percentage` returns
`(cpuDelta / systemDelta) * core_count * 100.0` when `cpuDelta > 0` and
`systemDelta > 0` (deltas over `total_usage` / `system_usage`,
`core_count` the length of the previous record's per-cpu list), and
exactly `0.0` otherwise; in particular the spec's worked example yields
`400.0`. -/
theorem C1_cpu_percent_formula :
    (∀ (ctot csys ptot psys : Int) (ck cu : Option Int)
        (cpl : Option (List Int)) (pk pu : Option Int) (percpu : List Int),
      get_cpu_percentage ⟨some ⟨some ctot, ck, cu, cpl⟩, some csys⟩
          ⟨some ⟨some ptot, pk, pu, some percpu⟩, some psys⟩
        = some (if (ctot : ℚ) - (ptot : ℚ) > 0 ∧ (csys : ℚ) - (psys : ℚ) > 0
            then (((ctot : ℚ) - (ptot : ℚ)) / ((csys : ℚ) - (psys : ℚ)))
                  * (percpu.length : ℚ) * 100
            else 0))
    ∧ get_cpu_percentage ⟨some ⟨some 200, none, none, none⟩, some 1100⟩
        ⟨some ⟨some 100, none, none, some [0, 0, 0, 0]⟩, some 1000⟩ = some 400 := by
  constructor
  · intro ctot csys ptot psys ck cu cpl pk pu percpu
    rw [get_cpu_percentage_complete]
    rfl
  · rw [get_cpu_percentage_complete]
    norm_num [cpuPercentVal]

/-- Claim C2: on the multi-interface `networks` shape, the network block
prints, for each interface in order, the four metrics suffixed with
`_<interfaceName>`, then one final unsuffixed group holding the field-wise
sums over all interfaces; in particular the spec's two-interface example
sums to `{rx_bytes:10, rx_packets:2, tx_bytes:10, tx_packets:2}`. -/
theorem C2_networks_per_interface_then_totals :
    (∀ ifs : List (String × NetRec),
      netLines (NetShape.networks ifs) =
        (ifs.map (fun p => specIfaceLines p.1 p.2)).flatten ++ specTotalLines ifs)
    ∧ netLines (NetShape.networks [("eth0", ⟨5, 1, 5, 1⟩), ("eth1", ⟨5, 1, 5, 1⟩)]) =
        [Line.metricInt "network_rx_bytes_eth0" 5,
         Line.metricInt "network_rx_packets_eth0" 1,
         Line.metricInt "network_tx_bytes_eth0" 5,
         Line.metricInt "network_tx_packets_eth0" 1,
         Line.metricInt "network_rx_bytes_eth1" 5,
         Line.metricInt "network_rx_packets_eth1" 1,
         Line.metricInt "network_tx_bytes_eth1" 5,
         Line.metricInt "network_tx_packets_eth1" 1,
         Line.metricInt "network_rx_bytes" 10,
         Line.metricInt "network_rx_packets" 2,
         Line.metricInt "network_tx_bytes" 10,
         Line.metricInt "network_tx_packets" 2] := by
  constructor
  · intro ifs
    rw [netLines_eq_spec]
    rfl
  · rfl

/-- A decodable sample that is complete except for the `pids_stats`
`current` field (its `precpu_stats` is the empty dictionary and it has no
memory limit and no network key). -/
def sampleNoPids : Sample where
  cpu_stats := ⟨some ⟨some 200, some 7, some 8, none⟩, some 1100⟩
  precpu_stats := ⟨none, none⟩
  memory_stats := ⟨some 50, none, some 60, some 70⟩
  pids_current := none
  net := .absent

/-- Claim C3 counterexample: a run whose sample lacks `pids_stats` data
fails after the success status line with seven metric lines already
printed — a partial batch on a failing run — so failures after argument
parsing are not all collapsed into the no-metrics failure outcome. -/
theorem C3_counterexample :
    (docker_stats ⟨true, true, some [some sampleNoPids]⟩).2 = Outcome.crashed
    ∧ 0 < ((docker_stats ⟨true, true, some [some sampleNoPids]⟩).1.countP
            (fun l => isMetricLine l)) := by
  constructor
  · rfl
  · decide

/-- Claim C3 amended: only failures inside the acquisition `try` block are
collapsed into the single failure outcome (one `status err` line, no
metric lines, exit 1); a failure to decode the returned payload happens
after the `status ok` line is printed and ends the run with an uncaught
exception instead, and field-extraction failures can additionally leave a
partial batch of metric lines. -/
theorem C3_amended_failure_collapse :
    (∀ hasC hasD : Bool, (hasC || hasD) = true →
      docker_stats ⟨hasC, hasD, none⟩ = ([Line.statusErr errMsg], Outcome.exited 1))
    ∧ (∀ (hasC hasD : Bool) (rest : List (Option Sample)), (hasC || hasD) = true →
      docker_stats ⟨hasC, hasD, some (none :: rest)⟩
        = ([Line.statusOk okMsg], Outcome.crashed)) := by
  constructor
  · intro hasC hasD h
    cases hasC <;> cases hasD <;> simp_all [docker_stats]
  · intro hasC hasD rest h
    cases hasC <;> cases hasD <;> simp_all [docker_stats]

/-- Claim C3 amended witness at concrete flags and payloads. -/
theorem C3_amended_failure_collapse_witness :
    ((true || true) = true
      ∧ docker_stats ⟨true, true, none⟩ = ([Line.statusErr errMsg], Outcome.exited 1))
    ∧ docker_stats ⟨true, true, some [none]⟩ = ([Line.statusOk okMsg], Outcome.crashed) :=
  ⟨⟨by decide, C3_amended_failure_collapse.1 true true (by decide)⟩,
   C3_amended_failure_collapse.2 true true [] (by decide)⟩

/-- A sample whose `precpu_stats` passes the controller's guard (it is
truthy and has `cpu_usage.total_usage`) but lacks the `system_cpu_usage`
and `percpu_usage` fields that `get_cpu_percentage` reads. -/
def sampleThinPrecpu : Sample where
  cpu_stats := ⟨some ⟨some 200, some 7, some 8, none⟩, some 1100⟩
  precpu_stats := ⟨some ⟨some 100, none, none, none⟩, none⟩
  memory_stats := ⟨some 50, none, some 60, some 70⟩
  pids_current := some 3
  net := .absent

/-- Claim C4 counterexample: the guard at line 112 accepts a previous
record that lacks `system_cpu_usage` (and `percpu_usage`), and the call to
`get_cpu_percentage` then raises, crashing the run. -/
theorem C4_counterexample :
    cpuGuard sampleThinPrecpu.precpu_stats = true
    ∧ get_cpu_percentage sampleThinPrecpu.cpu_stats sampleThinPrecpu.precpu_stats = none
    ∧ (docker_stats ⟨true, true, some [some sampleThinPrecpu]⟩).2 = Outcome.crashed := by
  refine ⟨rfl, rfl, rfl⟩

/-- Claim C4 amended: `get_cpu_percentage` is total over records carrying
every field it reads (the `systemDelta > 0` guard prevents division by
zero), but the controller's guard only ensures that the previous record is
truthy and carries `cpu_usage.total_usage` — it does not ensure the
presence of `system_cpu_usage` or `percpu_usage`, so the call can raise. -/
theorem C4_amended_guard_insufficient :
    (∀ (ctot csys ptot psys : Int) (ck cu : Option Int)
        (cpl : Option (List Int)) (pk pu : Option Int) (percpu : List Int),
      get_cpu_percentage ⟨some ⟨some ctot, ck, cu, cpl⟩, some csys⟩
          ⟨some ⟨some ptot, pk, pu, some percpu⟩, some psys⟩ ≠ none)
    ∧ (∀ p : CpuStats, cpuGuard p = true ↔
        (dictTruthy p = true
          ∧ ∃ cu, p.cpu_usage = some cu ∧ cu.total_usage.isSome = true)) := by
  constructor
  · intro ctot csys ptot psys ck cu cpl pk pu percpu
    rw [get_cpu_percentage_complete]
    exact Option.some_ne_none _
  · intro p
    cases hcu : p.cpu_usage with
    | none => simp [cpuGuard, hcu]
    | some cu => simp [cpuGuard, hcu]

/-- Claim C4 amended witness: totality at the spec's worked example, and
the guard characterisation at a concrete thin previous record. -/
theorem C4_amended_guard_insufficient_witness :
    get_cpu_percentage ⟨some ⟨some 200, none, none, none⟩, some 1100⟩
        ⟨some ⟨some 100, none, none, some [0, 0, 0, 0]⟩, some 1000⟩ ≠ none
    ∧ (cpuGuard ⟨some ⟨some 100, none, none, none⟩, none⟩ = true ↔
        (dictTruthy (⟨some ⟨some 100, none, none, none⟩, none⟩ : CpuStats) = true
          ∧ ∃ cu, (⟨some ⟨some 100, none, none, none⟩, none⟩ : CpuStats).cpu_usage = some cu
              ∧ cu.total_usage.isSome = true)) :=
  ⟨C4_amended_guard_insufficient.1 200 1100 100 1000 none none none none none [0, 0, 0, 0],
   C4_amended_guard_insufficient.2 ⟨some ⟨some 100, none, none, none⟩, none⟩⟩

/-- Claim C5: on a successful run the output is the `status ok` line
followed by the metric lines in the fixed §4.3 order, the process exits
with code 0 after the first sample, and any further samples in the
sequence are never consulted. -/
theorem C5_success_order_and_exit :
    ∀ (cs : CompleteSample) (rest : List (Option Sample)) (hasC hasD : Bool),
      (hasC || hasD) = true → cs.mlimit ≠ some 0 →
      docker_stats ⟨hasC, hasD, some (some cs.toSample :: rest)⟩
        = (Line.statusOk okMsg :: specLines cs, Outcome.exited 0) := by
  intro cs rest hasC hasD h hm
  have he := emitSample_toSample cs hm
  cases hasC <;> cases hasD <;> simp_all [docker_stats]

/-- Claim C5 witness: a concrete complete sample, with one extra sample
left in the sequence. -/
theorem C5_success_order_and_exit_witness :
    ((true || false) = true ∧
      (⟨200, 1100, 7, 8, .full 100 1000 [0, 0, 0, 0], 50, 60, 70, some 200, 3,
        .network ⟨10, 1, 20, 2⟩⟩ : CompleteSample).mlimit ≠ some 0)
    ∧ docker_stats ⟨true, false,
        some [some (CompleteSample.toSample
          ⟨200, 1100, 7, 8, .full 100 1000 [0, 0, 0, 0], 50, 60, 70, some 200, 3,
           .network ⟨10, 1, 20, 2⟩⟩), none]⟩
      = (Line.statusOk okMsg :: specLines
          ⟨200, 1100, 7, 8, .full 100 1000 [0, 0, 0, 0], 50, 60, 70, some 200, 3,
           .network ⟨10, 1, 20, 2⟩⟩, Outcome.exited 0) :=
  ⟨⟨by decide, by decide⟩,
   C5_success_order_and_exit
     ⟨200, 1100, 7, 8, .full 100 1000 [0, 0, 0, 0], 50, 60, 70, some 200, 3,
      .network ⟨10, 1, 20, 2⟩⟩ [none] true false (by decide) (by decide)⟩

/-- Claim C6: when acquiring the sample raises any exception, the output
is exactly one `status err` line — no metric lines before or after — and
the process exits with code 1. -/
theorem C6_connection_failure :
    ∀ hasC hasD : Bool, (hasC || hasD) = true →
      docker_stats ⟨hasC, hasD, none⟩ = ([Line.statusErr errMsg], Outcome.exited 1) := by
  intro hasC hasD h
  cases hasC <;> cases hasD <;> simp_all [docker_stats]

/-- Claim C6 witness at concrete flags. -/
theorem C6_connection_failure_witness :
    (true || false) = true
    ∧ docker_stats ⟨true, false, none⟩ = ([Line.statusErr errMsg], Outcome.exited 1) :=
  ⟨by decide, C6_connection_failure true false (by decide)⟩

/-- Claim C7 counterexample: with neither client shape detectable the
probe does exit with code 1, but the single line it prints is the plain
unsupported-version diagnostic — no line of the `status` wire format
(`status ok ...` / `status err ...`) is printed at all. -/
theorem C7_counterexample :
    ((docker_stats ⟨false, false, none⟩).1.countP (fun l => isStatusLine l) = 0)
    ∧ (docker_stats ⟨false, false, none⟩).1 = [Line.plain unsupportedMsg]
    ∧ (docker_stats ⟨false, false, none⟩).2 = Outcome.exited 1 := by
  refine ⟨rfl, rfl, rfl⟩

/-- Claim C7 amended: when neither client shape is detectable the probe
prints exactly one diagnostic line naming the unsupported library version
— a plain line, not a `status`-format status line — emits nothing else,
aborts the run, and terminates with exit code 1. -/
theorem C7_amended_unsupported_diagnostic :
    ∀ acq : Option (List (Option Sample)),
      docker_stats ⟨false, false, acq⟩ = ([Line.plain unsupportedMsg], Outcome.exited 1) := by
  intro acq
  rfl

/-- Claim C8: on a successfully processed sample, the
`memory_usage_percent` line (rendered with the `%.1f` format) is present
exactly when the memory limit field is, and then carries
`100.0 * usage / limit`. -/
theorem C8_memory_percent_iff_limit :
    ∀ cs : CompleteSample, cs.mlimit ≠ some 0 →
      ((emitSample cs.toSample).1.filter (fun l => isMemPctLine l)) =
        (match cs.mlimit with
         | some l =>
            [Line.metricF1 "memory_usage_percent" (100 * (cs.musage : ℚ) / (l : ℚ))]
         | none => []) := by
  intro cs h
  rw [emitSample_toSample cs h]
  cases hm : cs.mlimit with
  | none =>
      cases hp : cs.precpu with
      | empty =>
          simp only [specLines, hm, hp, List.filter_append]
          rw [specNetLines_no_memPct]
          simp [isMemPctLine]
      | full ptot psys percpu =>
          simp only [specLines, hm, hp, List.filter_append]
          rw [specNetLines_no_memPct]
          simp [isMemPctLine]
  | some l =>
      cases hp : cs.precpu with
      | empty =>
          simp only [specLines, hm, hp, List.filter_append]
          rw [specNetLines_no_memPct]
          simp [isMemPctLine, mul_div_assoc]
      | full ptot psys percpu =>
          simp only [specLines, hm, hp, List.filter_append]
          rw [specNetLines_no_memPct]
          simp [isMemPctLine, mul_div_assoc]

/-- Claim C8 witness: a concrete sample with limit 200 and usage 50. -/
theorem C8_memory_percent_iff_limit_witness :
    (⟨200, 1100, 7, 8, .empty, 50, 60, 70, some 200, 3, .absent⟩
        : CompleteSample).mlimit ≠ some 0
    ∧ ((emitSample (CompleteSample.toSample
          ⟨200, 1100, 7, 8, .empty, 50, 60, 70, some 200, 3, .absent⟩)).1.filter
            (fun l => isMemPctLine l)) =
        [Line.metricF1 "memory_usage_percent" (100 * ((50 : Int) : ℚ) / ((200 : Int) : ℚ))] :=
  ⟨by decide,
   C8_memory_percent_iff_limit
     ⟨200, 1100, 7, 8, .empty, 50, 60, 70, some 200, 3, .absent⟩ (by decide)⟩

/-- A sample with every field present and a memory limit equal to zero
(its `precpu_stats` is the empty dictionary). -/
def sampleZeroLimit : Sample where
  cpu_stats := ⟨some ⟨some 200, some 7, some 8, none⟩, some 1100⟩
  precpu_stats := ⟨none, none⟩
  memory_stats := ⟨some 50, some 0, some 60, some 70⟩
  pids_current := some 3
  net := .network ⟨10, 1, 20, 2⟩

/-- Claim C9: a sample whose memory limit is present and zero drives the
`memory_usage_percent` computation into an unguarded division by zero: the
emission body stops right there (the five preceding metric lines are
printed, the run does not complete), and `pydiv` on divisor zero raises. -/
theorem C9_zero_limit_division_crash :
    sampleZeroLimit.memory_stats.limit = some 0
    ∧ pydiv ((50 : Int) : ℚ) ((0 : Int) : ℚ) = none
    ∧ emitSample sampleZeroLimit =
        ([Line.metricInt "cpu_total_usage" 200,
          Line.metricInt "cpu_system_usage" 1100,
          Line.metricInt "cpu_kernel_mode_usage" 7,
          Line.metricInt "cpu_user_mode_usage" 8,
          Line.metricInt "memory_usage" 50], false) := by
  refine ⟨rfl, by norm_num [pydiv], ?_⟩
  simp [emitSample, sampleZeroLimit, cpuGuard, dictTruthy, pydiv]

/-- Claim C10: a successful acquisition that yields an empty sequence of
samples prints the success status line, emits no metric lines, and the
function falls through the loop and returns, so the process terminates
with exit code 0. -/
theorem C10_empty_sequence_success :
    ∀ hasC hasD : Bool, (hasC || hasD) = true →
      docker_stats ⟨hasC, hasD, some []⟩ = ([Line.statusOk okMsg], Outcome.returned)
      ∧ exitCodeOf (docker_stats ⟨hasC, hasD, some []⟩).2 = 0 := by
  intro hasC hasD h
  cases hasC <;> cases hasD <;> simp_all [docker_stats, exitCodeOf]

/-- Claim C10 witness at concrete flags. -/
theorem C10_empty_sequence_success_witness :
    (true || false) = true
    ∧ (docker_stats ⟨true, false, some []⟩ = ([Line.statusOk okMsg], Outcome.returned)
        ∧ exitCodeOf (docker_stats ⟨true, false, some []⟩).2 = 0) :=
  ⟨by decide, C10_empty_sequence_success true false (by decide)⟩

end DockerStatsCheck
